import Mathlib

/-!
Verification of `logfire/experimental/annotations.py`.

The module glues two capabilities of a tracing backend: serializing a live
span's context into a W3C traceparent string, and emitting a new annotation
span under a remote context with merged attributes.  We embed the Python
functions (`_random_attrs`, `get_traceparent`, `raw_annotate_span`,
`record_feedback`) as pure Lean functions.

Modelling conventions:
* Python `dict` is an insertion-ordered association list with unique keys;
  `pyInsert` mirrors `d[k] = v` (replace in place, else append) and
  `pyUpdate` mirrors `d.update(e)` / `\x7b**a, **b\x7d` merging.
* nondeterminism (`random`, `uuid`, `time`) is threaded explicitly as a
  `RandDraw` argument: `random.randint(a, b)` maps an arbitrary draw into
  `[a, b]`, `random.getrandbits(32)` into `[0, 2^32)`, `random.choice`
  picks by an arbitrary index, and `random.random() < 0.05` is the Boolean
  outcome `egg` of that comparison.
* the process-wide flag `RANDOMIZE` is threaded as the Boolean argument
  `randomize` (the spec's design note asks for exactly this).
* the fallible operations return `Except PyError _`: a failed Python
  `assert` is `PyError.assertionError`, and the `TypeError` CPython raises
  for duplicate keyword arguments in `f(**a, **b)` is `PyError.typeError`.
-/

/-- Python attribute values as used by this module: ints, floats (kept as
their `repr` string, since the module never computes with them), bools and
strings. -/
inductive PyValue where
  | int (n : Int)
  | float (lit : String)
  | bool (b : Bool)
  | str (s : String)
deriving DecidableEq, Repr

/-- The single-quote character, used by Python `repr` of strings. -/
def pyQuote : String := String.singleton (Char.ofNat 39)

/-- Python `repr` of a value (`f-string` `!r` conversion). -/
def pyRepr : PyValue → String
  | PyValue.int n => toString n
  | PyValue.float l => l
  | PyValue.bool true => "True"
  | PyValue.bool false => "False"
  | PyValue.str s => pyQuote ++ s ++ pyQuote

/-- A Python dict: insertion-ordered association list. -/
abbrev PyDict := List (String × PyValue)

/-- `k in d`. -/
def hasKey (d : PyDict) (k : String) : Bool :=
  d.any (fun p => p.1 == k)

/-- `d[k] = v`: replace the value in place if the key exists, else append. -/
def pyInsert (d : PyDict) (k : String) (v : PyValue) : PyDict :=
  if hasKey d k then d.map (fun p => if p.1 == k then (k, v) else p)
  else d ++ [(k, v)]

/-- `d.update(e)` and dict-literal merging `\x7b**d, **e\x7d`: entries of `e`
are inserted left to right, so `e` wins on key collisions. -/
def pyUpdate (d e : PyDict) : PyDict :=
  e.foldl (fun acc p => pyInsert acc p.1 p.2) d

/-- `d.get(k)`. -/
def pyLookup (d : PyDict) (k : String) : Option PyValue :=
  (d.find? (fun p => p.1 == k)).map Prod.snd

/-- `list(d.keys())`. -/
def pyKeys (d : PyDict) : List String := d.map Prod.fst

theorem hasKey_iff_mem (d : PyDict) (k : String) :
    hasKey d k = true ↔ k ∈ pyKeys d := by
  simp only [hasKey, pyKeys, List.any_eq_true, beq_iff_eq, List.mem_map]

theorem hasKey_eq_false_iff (d : PyDict) (k : String) :
    hasKey d k = false ↔ k ∉ pyKeys d := by
  rw [← hasKey_iff_mem d k]
  cases h : hasKey d k <;> simp

theorem pyInsert_of_not_mem {d : PyDict} {k : String} (v : PyValue)
    (h : k ∉ pyKeys d) : pyInsert d k v = d ++ [(k, v)] := by
  unfold pyInsert
  rw [if_neg]
  rw [← hasKey_eq_false_iff] at h
  simp [h]

theorem pyKeys_append (d e : PyDict) :
    pyKeys (d ++ e) = pyKeys d ++ pyKeys e := by
  simp [pyKeys]

theorem pyKeys_map_replace (d : PyDict) (k : String) (v : PyValue) :
    pyKeys (d.map (fun p => if p.1 == k then (k, v) else p)) = pyKeys d := by
  induction d with
  | nil => rfl
  | cons p ps ih =>
    show ((if p.1 == k then (k, v) else p).1 ::
        pyKeys (ps.map (fun q => if q.1 == k then (k, v) else q))) = p.1 :: pyKeys ps
    by_cases hp : (p.1 == k) = true
    · rw [if_pos hp, ih]
      exact congrArg (fun x => x :: pyKeys ps) (beq_iff_eq.mp hp).symm
    · rw [if_neg (by simp [hp]), ih]

theorem pyKeys_pyInsert (d : PyDict) (k : String) (v : PyValue) :
    pyKeys (pyInsert d k v) = if hasKey d k then pyKeys d else pyKeys d ++ [k] := by
  unfold pyInsert
  by_cases h : hasKey d k = true
  · simp only [h, if_true]
    exact pyKeys_map_replace d k v
  · simp only [h, if_false]
    simp [pyKeys]

theorem hasKey_pyInsert (d : PyDict) (k k0 : String) (v : PyValue) :
    hasKey (pyInsert d k0 v) k = (hasKey d k || k == k0) := by
  have hmem : hasKey (pyInsert d k0 v) k = true ↔ (hasKey d k || k == k0) = true := by
    rw [hasKey_iff_mem, pyKeys_pyInsert]
    by_cases h : hasKey d k0 = true
    · rw [if_pos h]
      simp only [Bool.or_eq_true, beq_iff_eq, hasKey_iff_mem]
      constructor
      · exact Or.inl
      · rintro (hm | he)
        · exact hm
        · subst he
          exact (hasKey_iff_mem _ _).mp h
    · rw [if_neg h]
      simp [hasKey_iff_mem]
  cases hL : hasKey (pyInsert d k0 v) k <;> cases hR : (hasKey d k || k == k0)
  · rfl
  · rw [hL, hR] at hmem
    exact absurd (hmem.mpr rfl) (by simp)
  · rw [hL, hR] at hmem
    exact absurd (hmem.mp rfl) (by simp)
  · rfl

theorem hasKey_pyUpdate (d e : PyDict) (k : String) :
    hasKey (pyUpdate d e) k = (hasKey d k || hasKey e k) := by
  induction e generalizing d with
  | nil => simp [pyUpdate, hasKey]
  | cons p ps ih =>
    show hasKey (pyUpdate (pyInsert d p.1 p.2) ps) k = _
    rw [ih, hasKey_pyInsert]
    show _ = (hasKey d k || hasKey (p :: ps) k)
    unfold hasKey
    simp only [List.any_cons]
    cases hd : d.any (fun q => q.1 == k) <;>
      cases hp : p.1 == k <;>
        simp_all [BEq.comm]

theorem hasKey_append (d e : PyDict) (k : String) :
    hasKey (d ++ e) k = (hasKey d k || hasKey e k) := by
  simp [hasKey, List.any_append]

theorem pyLookup_nil (k : String) : pyLookup [] k = none := rfl

theorem pyLookup_cons (p : String × PyValue) (d : PyDict) (k : String) :
    pyLookup (p :: d) k = if p.1 == k then some p.2 else pyLookup d k := by
  by_cases hp : (p.1 == k) = true
  · simp [pyLookup, List.find?, hp]
  · simp [pyLookup, List.find?, hp]

theorem hasKey_cons (p : String × PyValue) (d : PyDict) (k : String) :
    hasKey (p :: d) k = ((p.1 == k) || hasKey d k) := by
  simp [hasKey]

theorem pyLookup_eq_none_of_hasKey_eq_false {d : PyDict} {k : String}
    (h : hasKey d k = false) : pyLookup d k = none := by
  induction d with
  | nil => rfl
  | cons p ps ih =>
    rw [hasKey_cons] at h
    rcases Bool.or_eq_false_iff.mp h with ⟨h1, h2⟩
    rw [pyLookup_cons, if_neg (by simp [h1]), ih h2]

theorem pyLookup_append (d e : PyDict) (k : String) :
    pyLookup (d ++ e) k = if hasKey d k then pyLookup d k else pyLookup e k := by
  induction d with
  | nil => simp [hasKey, pyLookup_nil]
  | cons p ps ih =>
    show pyLookup (p :: (ps ++ e)) k = _
    rw [pyLookup_cons, hasKey_cons, pyLookup_cons, ih]
    by_cases hp : (p.1 == k) = true
    · simp [hp]
    · by_cases hk : hasKey ps k = true <;> simp [hp, hk]

theorem pyLookup_map_replace_self {d : PyDict} {k : String} (v : PyValue)
    (h : hasKey d k = true) :
    pyLookup (d.map (fun p => if p.1 == k then (k, v) else p)) k = some v := by
  induction d with
  | nil => simp [hasKey] at h
  | cons p ps ih =>
    rw [List.map_cons, pyLookup_cons]
    by_cases hp : (p.1 == k) = true
    · rw [if_pos hp]
      simp
    · rw [if_neg hp]
      rw [if_neg (by simp [hp])]
      rw [hasKey_cons] at h
      rcases Bool.or_eq_true_iff.mp h with h1 | h2
      · exact absurd h1 hp
      · exact ih h2

theorem pyLookup_map_replace_ne {k k0 : String} (d : PyDict) (v : PyValue)
    (h : k ≠ k0) :
    pyLookup (d.map (fun p => if p.1 == k0 then (k0, v) else p)) k = pyLookup d k := by
  have hne : ((k0 : String) == k) = false := by
    simp only [beq_eq_false_iff_ne, ne_eq]
    exact fun he => h he.symm
  induction d with
  | nil => rfl
  | cons p ps ih =>
    rw [List.map_cons, pyLookup_cons, pyLookup_cons]
    by_cases hp : (p.1 == k0) = true
    · have hpk : p.1 = k0 := beq_iff_eq.mp hp
      have h2 : (p.1 == k) = false := by rw [hpk]; exact hne
      rw [if_pos hp]
      simp only [hne, h2, Bool.false_eq_true, if_false, ih]
    · rw [if_neg hp]
      by_cases hk : (p.1 == k) = true
      · rw [if_pos hk, if_pos hk]
      · rw [if_neg hk, if_neg hk, ih]

theorem pyLookup_pyInsert_self (d : PyDict) (k : String) (v : PyValue) :
    pyLookup (pyInsert d k v) k = some v := by
  unfold pyInsert
  by_cases h : hasKey d k = true
  · rw [if_pos h]
    exact pyLookup_map_replace_self v h
  · rw [if_neg h, pyLookup_append]
    rw [Bool.not_eq_true] at h
    rw [if_neg (by simp [h]), pyLookup_cons, if_pos (by simp)]

theorem pyLookup_pyInsert_ne {k k0 : String} (d : PyDict) (v : PyValue)
    (h : k ≠ k0) : pyLookup (pyInsert d k0 v) k = pyLookup d k := by
  unfold pyInsert
  by_cases h0 : hasKey d k0 = true
  · rw [if_pos h0]
    exact pyLookup_map_replace_ne d v h
  · rw [if_neg h0, pyLookup_append]
    by_cases hd : hasKey d k = true
    · rw [if_pos hd]
    · have hne : ((k0 : String) == k) = false := by
        simp only [beq_eq_false_iff_ne, ne_eq]
        exact fun he => h he.symm
      rw [if_neg hd, pyLookup_cons, if_neg (by simp [hne]),
        pyLookup_nil, pyLookup_eq_none_of_hasKey_eq_false (Bool.not_eq_true _ |>.mp hd)]

theorem pyLookup_pyUpdate_of_hasKey_eq_false {e : PyDict} {k : String} (d : PyDict)
    (h : hasKey e k = false) : pyLookup (pyUpdate d e) k = pyLookup d k := by
  induction e generalizing d with
  | nil => rfl
  | cons p ps ih =>
    rw [hasKey_cons] at h
    rcases Bool.or_eq_false_iff.mp h with ⟨h1, h2⟩
    show pyLookup (pyUpdate (pyInsert d p.1 p.2) ps) k = _
    rw [ih _ h2, pyLookup_pyInsert_ne _ _ (by simp at h1; exact fun he => h1 he.symm)]

theorem pyLookup_pyUpdate_of_hasKey {e : PyDict} {k : String} (d : PyDict)
    (hnd : (pyKeys e).Nodup) (h : hasKey e k = true) :
    pyLookup (pyUpdate d e) k = pyLookup e k := by
  induction e generalizing d with
  | nil => simp [hasKey] at h
  | cons p ps ih =>
    show pyLookup (pyUpdate (pyInsert d p.1 p.2) ps) k = _
    rw [pyLookup_cons]
    have hnd' : (pyKeys ps).Nodup := (List.nodup_cons.mp hnd).2
    have hout : p.1 ∉ pyKeys ps := (List.nodup_cons.mp hnd).1
    by_cases hp : (p.1 == k) = true
    · rw [if_pos hp]
      have hk : p.1 = k := beq_iff_eq.mp hp
      have hps : hasKey ps k = false := by
        rw [hasKey_eq_false_iff, ← hk]
        exact hout
      rw [pyLookup_pyUpdate_of_hasKey_eq_false _ hps, ← hk, pyLookup_pyInsert_self]
    · rw [if_neg hp]
      have hps : hasKey ps k = true := by
        rw [hasKey_cons] at h
        rcases Bool.or_eq_true_iff.mp h with h1 | h2
        · exact absurd h1 hp
        · exact h2
      exact ih _ hnd' hps

theorem pyUpdate_nil (d : PyDict) : pyUpdate d [] = d := rfl

theorem pyUpdate_eq_append {e : PyDict} (d : PyDict)
    (hnd : (pyKeys e).Nodup) (hdis : ∀ k ∈ pyKeys e, hasKey d k = false) :
    pyUpdate d e = d ++ e := by
  induction e generalizing d with
  | nil => simp [pyUpdate_nil]
  | cons p ps ih =>
    show pyUpdate (pyInsert d p.1 p.2) ps = _
    have hnd' : (pyKeys ps).Nodup := (List.nodup_cons.mp hnd).1 |> fun _ => (List.nodup_cons.mp hnd).2
    have hout : p.1 ∉ pyKeys ps := (List.nodup_cons.mp hnd).1
    have hins : pyInsert d p.1 p.2 = d ++ [p] := by
      rw [pyInsert_of_not_mem p.2 (by rw [← hasKey_eq_false_iff]; exact hdis p.1 (by simp [pyKeys]))]
    rw [hins, ih _ hnd' ?dis]
    · simp
    case dis =>
      intro k hk
      rw [hasKey_append, hasKey_cons]
      have h1 : hasKey d k = false := hdis k (List.mem_cons_of_mem _ hk)
      have h2 : (p.1 == k) = false := by
        simp only [beq_eq_false_iff_ne, ne_eq]
        intro he
        exact hout (he ▸ hk)
      have h3 : hasKey ([] : PyDict) k = false := rfl
      simp [h1, h2, h3]

/-- One sample of the external nondeterminism consumed by `_random_attrs`:
the `uuid.uuid4()` string, the index drawn by `random.choice`, the raw draws
behind `random.randint` and `random.getrandbits`, the `time.time()` float
(kept as its repr string), and the Boolean outcome of
`random.random() < 0.05`. -/
structure RandDraw where
  uuid : String
  emojiIdx : Nat
  powerDraw : Nat
  ts : String
  seedDraw : Nat
  egg : Bool
deriving DecidableEq, Repr

/-- `random.randint(lo, hi)`: an arbitrary draw reduced into `[lo, hi]`. -/
def randint (lo hi : Nat) (draw : Nat) : Nat := lo + draw % (hi + 1 - lo)

/-- `random.getrandbits(k)`: an arbitrary draw reduced into `[0, 2^k)`. -/
def getrandbits (k : Nat) (draw : Nat) : Nat := draw % 2 ^ k

/-- The emoji pool of `_random_attrs`. -/
def emojis : List String := ["✨", "🔥", "🌈", "🛰️", "🦄", "💫", "🤖", "🍀", "☕"]

/-- `random.choice(xs)`: an element selected by an arbitrary draw. -/
def pyChoice (xs : List String) (idx : Nat) : String := xs.getD (idx % xs.length) ""

/-- `_random_attrs`: harmless random attributes attached to annotations
(purely decorative).  Returns the empty dict when the process-wide
`RANDOMIZE` flag (threaded as `randomize`) is off; otherwise five
`x-random-*` entries plus, on a 5% draw, the easter-egg marker. -/
def _random_attrs (randomize : Bool) (r : RandDraw) : PyDict :=
  if !randomize then []
  else
    let attrs : PyDict :=
      [("x-random-uuid", PyValue.str r.uuid),
       ("x-random-emoji", PyValue.str (pyChoice emojis r.emojiIdx)),
       ("x-random-power", PyValue.int (randint 1 9000 r.powerDraw)),
       ("x-random-ts", PyValue.float r.ts),
       ("x-random-seed", PyValue.int (getrandbits 32 r.seedDraw))]
    if r.egg then attrs ++ [("x-random-easter-egg", PyValue.str "may_the_force_be_with_you")]
    else attrs

/-- Modelled from the spec: `ATTRIBUTES_MESSAGE_KEY` is imported from
`logfire._internal.constants`, which is outside the verified source; the
spec only requires a reserved message key marking the human-readable text
of emitted spans. -/
def ATTRIBUTES_MESSAGE_KEY : String := "logfire.msg"

/-- Modelled from the spec: `ATTRIBUTES_SPAN_TYPE_KEY` is imported from
`logfire._internal.constants`, which is outside the verified source; the
spec only requires a reserved kind key marking emitted spans as
annotation-type records. -/
def ATTRIBUTES_SPAN_TYPE_KEY : String := "logfire.span_type"

/-- Python exceptions this module can raise: a failed `assert`, and the
`TypeError` CPython raises for duplicate keyword arguments. -/
inductive PyError where
  | assertionError
  | typeError
deriving DecidableEq, Repr

/-- The one observable effect of the module: a span handed to the tracing
backend, with its restored parent context, name, final attribute dict and
the `feedback` instrumentation-scope suffix of `feedback_logfire`. -/
structure EmittedSpan where
  traceparent : List Char
  spanName : String
  attributes : PyDict
  scopeSuffix : String
deriving DecidableEq, Repr

/-- `raw_annotate_span`: merge the decorative attributes over the caller
attributes (`\x7b**attributes, **_random_attrs()\x7d`, decorative second), then
emit one span of kind `annotation` carrying the merged attributes plus the
reserved message/kind pair.  The `f(**decorated, **reserved)` call raises
`TypeError` if the two keyword dicts share a key. -/
def raw_annotate_span (randomize : Bool) (r : RandDraw) (traceparent : List Char)
    (span_name message : String) (attributes : PyDict) : Except PyError EmittedSpan :=
  let decorated_attributes := pyUpdate attributes (_random_attrs randomize r)
  if hasKey decorated_attributes ATTRIBUTES_MESSAGE_KEY ||
      hasKey decorated_attributes ATTRIBUTES_SPAN_TYPE_KEY then
    Except.error PyError.typeError
  else
    Except.ok
      { traceparent := traceparent
        spanName := span_name
        attributes := pyUpdate decorated_attributes
          [(ATTRIBUTES_MESSAGE_KEY, PyValue.str message),
           (ATTRIBUTES_SPAN_TYPE_KEY, PyValue.str "annotation")]
        scopeSuffix := "feedback" }

/-- Python truthiness of an optional dict (`if extra:`). -/
def pyTruthyDict : Option PyDict → Bool
  | none => false
  | some d => !d.isEmpty

/-- The dict literal `\x7b'logfire.feedback.name': name, name: value\x7d`
opening `record_feedback`. -/
def feedbackBase (name : String) (value : PyValue) : PyDict :=
  pyInsert (pyInsert [] "logfire.feedback.name" (PyValue.str name)) name value

/-- `if extra: ... attributes.update(extra)` (after the assert passed). -/
def feedbackWithExtra (name : String) (value : PyValue) (extra : Option PyDict) : PyDict :=
  if pyTruthyDict extra then pyUpdate (feedbackBase name value) (extra.getD [])
  else feedbackBase name value

/-- `if comment: attributes['logfire.feedback.comment'] = comment`. -/
def feedbackWithComment (name : String) (value : PyValue) (comment : Option String)
    (extra : Option PyDict) : PyDict :=
  match comment with
  | some c =>
    if c = "" then feedbackWithExtra name value extra
    else pyInsert (feedbackWithExtra name value extra) "logfire.feedback.comment" (PyValue.str c)
  | none => feedbackWithExtra name value extra

/-- The attribute pipeline of `record_feedback`: the reserved feedback
keys, then `extra` when truthy, then the comment key when truthy, then one
draw of decorative attributes (`attributes.update(_random_attrs())`). -/
def feedbackAttrs (name : String) (value : PyValue) (comment : Option String)
    (extra : Option PyDict) (randomize : Bool) (r1 : RandDraw) : PyDict :=
  pyUpdate (feedbackWithComment name value comment extra) (_random_attrs randomize r1)

/-- `record_feedback`: assert that `extra` does not collide with `name`
(`if extra: assert name not in extra`), build the merged feedback
attributes, then delegate to `raw_annotate_span` (which draws decorative
attributes once more). -/
def record_feedback (randomize : Bool) (r1 r2 : RandDraw) (traceparent : List Char)
    (name : String) (value : PyValue) (comment : Option String)
    (extra : Option PyDict) : Except PyError EmittedSpan :=
  if pyTruthyDict extra && hasKey (extra.getD []) name then
    Except.error PyError.assertionError
  else
    raw_annotate_span randomize r2 traceparent
      ("feedback: " ++ name)
      ("feedback: " ++ name ++ " = " ++ pyRepr value)
      (feedbackAttrs name value comment extra randomize r1)

/-- The spans that reach the tracing backend during one `record_feedback`
call: exactly one on success, none when the call raises first. -/
def record_feedback_emitted (randomize : Bool) (r1 r2 : RandDraw) (traceparent : List Char)
    (name : String) (value : PyValue) (comment : Option String)
    (extra : Option PyDict) : List EmittedSpan :=
  match record_feedback randomize r1 r2 traceparent name value comment extra with
  | Except.ok e => [e]
  | Except.error _ => []

/-- All keys `_random_attrs` can ever produce. -/
def xRandomKeys : List String :=
  ["x-random-uuid", "x-random-emoji", "x-random-power", "x-random-ts",
   "x-random-seed", "x-random-easter-egg"]

theorem pyKeys_random_attrs (rz : Bool) (r : RandDraw) :
    pyKeys (_random_attrs rz r) =
      if rz = false then []
      else if r.egg then xRandomKeys else xRandomKeys.take 5 := by
  cases rz <;> rcases r with ⟨u, ei, pd, ts, sd, egg⟩ <;> cases egg <;> rfl

theorem random_attrs_keys_subset (rz : Bool) (r : RandDraw) :
    pyKeys (_random_attrs rz r) ⊆ xRandomKeys := by
  rw [pyKeys_random_attrs]
  by_cases h : rz = false
  · rw [if_pos h]
    simp
  · rw [if_neg h]
    by_cases he : r.egg = true
    · rw [if_pos he]
      exact List.Subset.refl xRandomKeys
    · rw [if_neg he]
      exact List.take_subset 5 xRandomKeys

theorem random_attrs_keys_nodup (rz : Bool) (r : RandDraw) :
    (pyKeys (_random_attrs rz r)).Nodup := by
  rw [pyKeys_random_attrs]
  by_cases h : rz = false
  · rw [if_pos h]
    exact List.nodup_nil
  · rw [if_neg h]
    by_cases he : r.egg = true
    · rw [if_pos he]
      decide
    · rw [if_neg he]
      decide

theorem hasKey_random_attrs_of_not_mem {k : String} (rz : Bool) (r : RandDraw)
    (h : k ∉ xRandomKeys) : hasKey (_random_attrs rz r) k = false := by
  rw [hasKey_eq_false_iff]
  exact fun hk => h (random_attrs_keys_subset rz r hk)

theorem pyLookup_random_attrs_uuid (r : RandDraw) :
    pyLookup (_random_attrs true r) "x-random-uuid" = some (PyValue.str r.uuid) := by
  rcases r with ⟨u, ei, pd, ts, sd, egg⟩
  cases egg <;> rfl

theorem pyLookup_random_attrs_emoji (r : RandDraw) :
    pyLookup (_random_attrs true r) "x-random-emoji" =
      some (PyValue.str (pyChoice emojis r.emojiIdx)) := by
  rcases r with ⟨u, ei, pd, ts, sd, egg⟩
  cases egg <;> rfl

theorem pyLookup_random_attrs_power (r : RandDraw) :
    pyLookup (_random_attrs true r) "x-random-power" =
      some (PyValue.int (randint 1 9000 r.powerDraw)) := by
  rcases r with ⟨u, ei, pd, ts, sd, egg⟩
  cases egg <;> rfl

theorem pyLookup_random_attrs_ts (r : RandDraw) :
    pyLookup (_random_attrs true r) "x-random-ts" = some (PyValue.float r.ts) := by
  rcases r with ⟨u, ei, pd, ts, sd, egg⟩
  cases egg <;> rfl

theorem pyLookup_random_attrs_seed (r : RandDraw) :
    pyLookup (_random_attrs true r) "x-random-seed" =
      some (PyValue.int (getrandbits 32 r.seedDraw)) := by
  rcases r with ⟨u, ei, pd, ts, sd, egg⟩
  cases egg <;> rfl

theorem hasKey_random_attrs_power (r : RandDraw) :
    hasKey (_random_attrs true r) "x-random-power" = true := by
  rcases r with ⟨u, ei, pd, ts, sd, egg⟩
  cases egg <;> rfl

theorem hasKey_random_attrs_egg (r : RandDraw) :
    hasKey (_random_attrs true r) "x-random-easter-egg" = r.egg := by
  rcases r with ⟨u, ei, pd, ts, sd, egg⟩
  cases egg <;> rfl

theorem hasKey_random_attrs_uuid (r : RandDraw) :
    hasKey (_random_attrs true r) "x-random-uuid" = true := by
  rcases r with ⟨u, ei, pd, ts, sd, egg⟩
  cases egg <;> rfl

theorem hasKey_random_attrs_emoji (r : RandDraw) :
    hasKey (_random_attrs true r) "x-random-emoji" = true := by
  rcases r with ⟨u, ei, pd, ts, sd, egg⟩
  cases egg <;> rfl

theorem hasKey_random_attrs_ts (r : RandDraw) :
    hasKey (_random_attrs true r) "x-random-ts" = true := by
  rcases r with ⟨u, ei, pd, ts, sd, egg⟩
  cases egg <;> rfl

theorem hasKey_random_attrs_seed (r : RandDraw) :
    hasKey (_random_attrs true r) "x-random-seed" = true := by
  rcases r with ⟨u, ei, pd, ts, sd, egg⟩
  cases egg <;> rfl

theorem random_attrs_off (r : RandDraw) : _random_attrs false r = [] := rfl

/-- The reserved keyword dict appended by the emission call. -/
def reservedPair (message : String) : PyDict :=
  [(ATTRIBUTES_MESSAGE_KEY, PyValue.str message),
   (ATTRIBUTES_SPAN_TYPE_KEY, PyValue.str "annotation")]

theorem hasKey_reservedPair (message : String) (k : String)
    (h1 : (ATTRIBUTES_MESSAGE_KEY == k) = false)
    (h2 : (ATTRIBUTES_SPAN_TYPE_KEY == k) = false) :
    hasKey (reservedPair message) k = false := by
  unfold reservedPair
  rw [hasKey_cons, hasKey_cons, h1, h2]
  rfl

theorem pyLookup_withReserved_of_ne (d : PyDict) (message : String) (k : String)
    (h1 : (ATTRIBUTES_MESSAGE_KEY == k) = false)
    (h2 : (ATTRIBUTES_SPAN_TYPE_KEY == k) = false) :
    pyLookup (pyUpdate d (reservedPair message)) k = pyLookup d k :=
  pyLookup_pyUpdate_of_hasKey_eq_false d (hasKey_reservedPair message k h1 h2)

theorem pyKeys_reservedPair (message : String) :
    pyKeys (reservedPair message) =
      [ATTRIBUTES_MESSAGE_KEY, ATTRIBUTES_SPAN_TYPE_KEY] := rfl

theorem pyLookup_withReserved_msg (d : PyDict) (message : String) :
    pyLookup (pyUpdate d (reservedPair message)) ATTRIBUTES_MESSAGE_KEY =
      some (PyValue.str message) := by
  rw [@pyLookup_pyUpdate_of_hasKey (reservedPair message) ATTRIBUTES_MESSAGE_KEY d
    (by rw [pyKeys_reservedPair]; decide) (by rfl)]
  rfl

/-- `raw_annotate_span` succeeds exactly when the caller attributes avoid
the two reserved keyword keys, and then emits the fully merged span. -/
theorem raw_annotate_span_eq_ok (randomize : Bool) (r : RandDraw)
    (traceparent : List Char) (span_name message : String) (A : PyDict)
    (h1 : hasKey A ATTRIBUTES_MESSAGE_KEY = false)
    (h2 : hasKey A ATTRIBUTES_SPAN_TYPE_KEY = false) :
    raw_annotate_span randomize r traceparent span_name message A =
      Except.ok
        { traceparent := traceparent
          spanName := span_name
          attributes := pyUpdate (pyUpdate A (_random_attrs randomize r)) (reservedPair message)
          scopeSuffix := "feedback" } := by
  unfold raw_annotate_span reservedPair
  have hm : hasKey (pyUpdate A (_random_attrs randomize r)) ATTRIBUTES_MESSAGE_KEY = false := by
    rw [hasKey_pyUpdate, h1, hasKey_random_attrs_of_not_mem _ _ (by decide)]
    rfl
  have ht : hasKey (pyUpdate A (_random_attrs randomize r)) ATTRIBUTES_SPAN_TYPE_KEY = false := by
    rw [hasKey_pyUpdate, h2, hasKey_random_attrs_of_not_mem _ _ (by decide)]
    rfl
  rw [if_neg]
  rw [hm, ht]
  simp

/-- Inversion: any span emitted by `raw_annotate_span` is the merged one. -/
theorem raw_annotate_span_ok_inv {randomize : Bool} {r : RandDraw}
    {traceparent : List Char} {span_name message : String} {A : PyDict}
    {e : EmittedSpan}
    (h : raw_annotate_span randomize r traceparent span_name message A = Except.ok e) :
    e = { traceparent := traceparent
          spanName := span_name
          attributes := pyUpdate (pyUpdate A (_random_attrs randomize r)) (reservedPair message)
          scopeSuffix := "feedback" } := by
  rw [reservedPair]
  simp only [raw_annotate_span] at h
  split at h
  · exact absurd h (by simp)
  · exact (Except.ok.inj h).symm

/-- Inversion: a successful `record_feedback` emits the merged span. -/
theorem record_feedback_ok_inv {randomize : Bool} {r1 r2 : RandDraw}
    {traceparent : List Char} {name : String} {value : PyValue}
    {comment : Option String} {extra : Option PyDict} {e : EmittedSpan}
    (h : record_feedback randomize r1 r2 traceparent name value comment extra = Except.ok e) :
    e = { traceparent := traceparent
          spanName := "feedback: " ++ name
          attributes := pyUpdate
            (pyUpdate (feedbackAttrs name value comment extra randomize r1)
              (_random_attrs randomize r2))
            (reservedPair ("feedback: " ++ name ++ " = " ++ pyRepr value))
          scopeSuffix := "feedback" } := by
  unfold record_feedback at h
  split at h
  · exact absurd h (by simp)
  · exact raw_annotate_span_ok_inv h

theorem hasKey_feedbackBase (name : String) (value : PyValue) (k : String) :
    hasKey (feedbackBase name value) k =
      ((k == "logfire.feedback.name") || (k == name)) := by
  unfold feedbackBase
  rw [hasKey_pyInsert, hasKey_pyInsert]
  have h0 : hasKey [] k = false := rfl
  rw [h0, Bool.false_or]

theorem pyLookup_feedbackBase_of_ne (name : String) (value : PyValue) (k : String)
    (h1 : k ≠ "logfire.feedback.name") (h2 : k ≠ name) :
    pyLookup (feedbackBase name value) k = none := by
  unfold feedbackBase
  rw [pyLookup_pyInsert_ne _ _ h2, pyLookup_pyInsert_ne _ _ h1, pyLookup_nil]

theorem pyLookup_feedbackWithExtra_of_ne (name : String) (value : PyValue)
    (extra : Option PyDict) (k : String)
    (h1 : k ≠ "logfire.feedback.name") (h2 : k ≠ name)
    (h3 : hasKey (extra.getD []) k = false) :
    pyLookup (feedbackWithExtra name value extra) k = none := by
  unfold feedbackWithExtra
  by_cases he : pyTruthyDict extra = true
  · rw [if_pos he, pyLookup_pyUpdate_of_hasKey_eq_false _ h3,
      pyLookup_feedbackBase_of_ne name value k h1 h2]
  · rw [if_neg he, pyLookup_feedbackBase_of_ne name value k h1 h2]

theorem hasKey_feedbackWithComment_egg (name : String) (value : PyValue)
    (comment : Option String) (extra : Option PyDict) (k : String)
    (h1 : (k == "logfire.feedback.name") = false) (h2 : (k == name) = false)
    (h3 : hasKey (extra.getD []) k = false)
    (h4 : (k == "logfire.feedback.comment") = false) :
    hasKey (feedbackWithComment name value comment extra) k = false := by
  have hwe : hasKey (feedbackWithExtra name value extra) k = false := by
    unfold feedbackWithExtra
    by_cases he : pyTruthyDict extra = true
    · rw [if_pos he, hasKey_pyUpdate, hasKey_feedbackBase, h1, h2, h3]
      rfl
    · rw [if_neg he, hasKey_feedbackBase, h1, h2]
      rfl
  cases comment with
  | none => exact hwe
  | some c =>
    show hasKey (if c = "" then feedbackWithExtra name value extra
      else pyInsert (feedbackWithExtra name value extra) "logfire.feedback.comment"
        (PyValue.str c)) k = false
    by_cases hc : c = ""
    · rw [if_pos hc]
      exact hwe
    · rw [if_neg hc, hasKey_pyInsert, hwe, h4]
      rfl

/-- A successful call with `comment = extra = None`, spelled out. -/
theorem record_feedback_none_eq_ok (randomize : Bool) (r1 r2 : RandDraw)
    (tp : List Char) (name : String) (value : PyValue)
    (h1 : (ATTRIBUTES_MESSAGE_KEY == name) = false)
    (h2 : (ATTRIBUTES_SPAN_TYPE_KEY == name) = false) :
    record_feedback randomize r1 r2 tp name value none none =
      Except.ok
        { traceparent := tp
          spanName := "feedback: " ++ name
          attributes := pyUpdate
            (pyUpdate (feedbackAttrs name value none none randomize r1)
              (_random_attrs randomize r2))
            (reservedPair ("feedback: " ++ name ++ " = " ++ pyRepr value))
          scopeSuffix := "feedback" } := by
  unfold record_feedback
  rw [if_neg (by simp [pyTruthyDict])]
  have hm : hasKey (feedbackAttrs name value none none randomize r1)
      ATTRIBUTES_MESSAGE_KEY = false := by
    unfold feedbackAttrs
    rw [hasKey_pyUpdate, hasKey_random_attrs_of_not_mem _ _ (by decide), Bool.or_false]
    exact hasKey_feedbackWithComment_egg _ _ _ _ _ (by decide) h1 rfl (by decide)
  have ht : hasKey (feedbackAttrs name value none none randomize r1)
      ATTRIBUTES_SPAN_TYPE_KEY = false := by
    unfold feedbackAttrs
    rw [hasKey_pyUpdate, hasKey_random_attrs_of_not_mem _ _ (by decide), Bool.or_false]
    exact hasKey_feedbackWithComment_egg _ _ _ _ _ (by decide) h2 rfl (by decide)
  exact raw_annotate_span_eq_ok randomize r2 tp _ _ _ hm ht

/-- A concrete randomness sample (no easter-egg draw); its `randint 1 9000`
value is `1 + 6 % 9000 = 7`. -/
def wDraw : RandDraw := ⟨"u", 0, 6, "1.5", 0, false⟩

/-- A concrete randomness sample whose easter-egg draw fired. -/
def wDraw2 : RandDraw := ⟨"v", 1, 41, "2.5", 7, true⟩

/-- C9: whenever decorative attributes are generated (randomization
enabled), the value of the `x-random-power` key is an integer in the
closed interval `[1, 9000]`, for every random draw. -/
theorem random_power_in_range (r : RandDraw) :
    ∃ n : Int, pyLookup (_random_attrs true r) "x-random-power" = some (PyValue.int n) ∧
      1 ≤ n ∧ n ≤ 9000 := by
  refine ⟨(randint 1 9000 r.powerDraw : Nat), pyLookup_random_attrs_power r, ?_, ?_⟩ <;>
  · unfold randint
    omega

/-- C3: for every traceparent, name, value and non-`None` extra map
containing the key `name`, `record_feedback` fails with the assertion
before any span is emitted: nothing reaches the backend. -/
theorem record_feedback_extra_collision (randomize : Bool) (r1 r2 : RandDraw)
    (tp : List Char) (name : String) (value : PyValue) (comment : Option String)
    (ex : PyDict) (h : hasKey ex name = true) :
    record_feedback randomize r1 r2 tp name value comment (some ex) =
        Except.error PyError.assertionError ∧
      record_feedback_emitted randomize r1 r2 tp name value comment (some ex) = [] := by
  have htr : pyTruthyDict (some ex) = true := by
    cases ex with
    | nil => rw [hasKey] at h; simp at h
    | cons p ps => rfl
  have hguard : (pyTruthyDict (some ex) &&
      hasKey ((some ex : Option PyDict).getD []) name) = true := by
    rw [htr]
    simpa using h
  have hrec : record_feedback randomize r1 r2 tp name value comment (some ex) =
      Except.error PyError.assertionError := by
    unfold record_feedback
    rw [if_pos hguard]
  refine ⟨hrec, ?_⟩
  unfold record_feedback_emitted
  rw [hrec]

theorem record_feedback_extra_collision_witness :
    hasKey [("score", PyValue.int 1)] "score" = true ∧
    (record_feedback true wDraw wDraw [] "score" (PyValue.int 1) none
        (some [("score", PyValue.int 1)]) = Except.error PyError.assertionError ∧
      record_feedback_emitted true wDraw wDraw [] "score" (PyValue.int 1) none
        (some [("score", PyValue.int 1)]) = []) :=
  ⟨by decide, record_feedback_extra_collision true wDraw wDraw [] "score"
    (PyValue.int 1) none [("score", PyValue.int 1)] (by decide)⟩

/-- C1 counterexample: with randomization on (the default), passing the
caller attribute `x-random-power = 42` to `raw_annotate_span` emits the
decorative draw (here `7`), not the caller's `42`: decoration does
override a caller-supplied key of the same name. -/
theorem decoration_override_counterexample :
    (raw_annotate_span true wDraw [] "note" "hi"
          [("x-random-power", PyValue.int 42)]).map
        (fun e => pyLookup e.attributes "x-random-power") =
      Except.ok (some (PyValue.int 7)) ∧
    PyValue.int 7 ≠ PyValue.int 42 :=
  ⟨rfl, by decide⟩

/-- C1 amended: `raw_annotate_span` merges the decorative attributes after
the caller attributes, so with randomization enabled a decorative key
overrides a caller-supplied key of the same name (the emitted
`x-random-power` always carries the fresh draw); caller values survive
exactly when randomization is disabled or the names do not collide. -/
theorem decoration_precedence :
    (∀ (r : RandDraw) (tp : List Char) (sn msg : String) (A : PyDict) (e : EmittedSpan),
      raw_annotate_span true r tp sn msg A = Except.ok e →
      pyLookup e.attributes "x-random-power" =
        some (PyValue.int (randint 1 9000 r.powerDraw))) ∧
    (∀ (r : RandDraw) (tp : List Char) (sn msg : String) (A : PyDict) (e : EmittedSpan)
        (k : String),
      raw_annotate_span false r tp sn msg A = Except.ok e →
      (ATTRIBUTES_MESSAGE_KEY == k) = false → (ATTRIBUTES_SPAN_TYPE_KEY == k) = false →
      pyLookup e.attributes k = pyLookup A k) := by
  constructor
  · intro r tp sn msg A e h
    rw [raw_annotate_span_ok_inv h]
    show pyLookup (pyUpdate (pyUpdate A (_random_attrs true r)) (reservedPair msg))
      "x-random-power" = _
    rw [pyLookup_withReserved_of_ne _ _ _ (by decide) (by decide),
      pyLookup_pyUpdate_of_hasKey A (random_attrs_keys_nodup true r)
        (hasKey_random_attrs_power r),
      pyLookup_random_attrs_power]
  · intro r tp sn msg A e k h hk1 hk2
    rw [raw_annotate_span_ok_inv h]
    show pyLookup (pyUpdate (pyUpdate A (_random_attrs false r)) (reservedPair msg)) k = _
    rw [pyLookup_withReserved_of_ne _ _ _ hk1 hk2, random_attrs_off, pyUpdate_nil]

/-- The span `raw_annotate_span` emits in the C1 witness scenario. -/
def wSpan1 : EmittedSpan :=
  { traceparent := []
    spanName := "note"
    attributes := pyUpdate
      (pyUpdate [("x-random-power", PyValue.int 42)] (_random_attrs true wDraw))
      (reservedPair "hi")
    scopeSuffix := "feedback" }

theorem decoration_precedence_witness :
    raw_annotate_span true wDraw [] "note" "hi" [("x-random-power", PyValue.int 42)] =
        Except.ok wSpan1 ∧
      pyLookup wSpan1.attributes "x-random-power" =
        some (PyValue.int (randint 1 9000 wDraw.powerDraw)) :=
  ⟨rfl, decoration_precedence.1 wDraw [] "note" "hi"
    [("x-random-power", PyValue.int 42)] wSpan1 rfl⟩

theorem record_feedback_ok_attributes {randomize : Bool} {r1 r2 : RandDraw}
    {traceparent : List Char} {name : String} {value : PyValue}
    {comment : Option String} {extra : Option PyDict} {e : EmittedSpan}
    (h : record_feedback randomize r1 r2 traceparent name value comment extra =
      Except.ok e) :
    e.attributes = pyUpdate
      (pyUpdate (feedbackAttrs name value comment extra randomize r1)
        (_random_attrs randomize r2))
      (reservedPair ("feedback: " ++ name ++ " = " ++ pyRepr value)) := by
  rw [record_feedback_ok_inv h]

theorem record_feedback_ok_spanName {randomize : Bool} {r1 r2 : RandDraw}
    {traceparent : List Char} {name : String} {value : PyValue}
    {comment : Option String} {extra : Option PyDict} {e : EmittedSpan}
    (h : record_feedback randomize r1 r2 traceparent name value comment extra =
      Except.ok e) :
    e.spanName = "feedback: " ++ name := by
  rw [record_feedback_ok_inv h]

/-- C10: with randomization enabled, `record_feedback` draws decorative
attributes twice (once itself, once inside `raw_annotate_span`); every
always-present decorative key carries the second draw's value, and the
easter-egg key is present exactly when it fired in either draw. -/
theorem record_feedback_double_draw (r1 r2 : RandDraw) (tp : List Char)
    (name : String) (value : PyValue) (e : EmittedSpan)
    (hname : ("x-random-easter-egg" == name) = false)
    (h : record_feedback true r1 r2 tp name value none none = Except.ok e) :
    pyLookup e.attributes "x-random-uuid" = some (PyValue.str r2.uuid) ∧
    pyLookup e.attributes "x-random-emoji" =
      some (PyValue.str (pyChoice emojis r2.emojiIdx)) ∧
    pyLookup e.attributes "x-random-power" =
      some (PyValue.int (randint 1 9000 r2.powerDraw)) ∧
    pyLookup e.attributes "x-random-ts" = some (PyValue.float r2.ts) ∧
    pyLookup e.attributes "x-random-seed" =
      some (PyValue.int (getrandbits 32 r2.seedDraw)) ∧
    hasKey e.attributes "x-random-easter-egg" = (r1.egg || r2.egg) := by
  have ha := record_feedback_ok_attributes h
  refine ⟨?_, ?_, ?_, ?_, ?_, ?_⟩
  · rw [ha, pyLookup_withReserved_of_ne _ _ _ (by decide) (by decide),
      pyLookup_pyUpdate_of_hasKey _ (random_attrs_keys_nodup true r2)
        (hasKey_random_attrs_uuid r2),
      pyLookup_random_attrs_uuid]
  · rw [ha, pyLookup_withReserved_of_ne _ _ _ (by decide) (by decide),
      pyLookup_pyUpdate_of_hasKey _ (random_attrs_keys_nodup true r2)
        (hasKey_random_attrs_emoji r2),
      pyLookup_random_attrs_emoji]
  · rw [ha, pyLookup_withReserved_of_ne _ _ _ (by decide) (by decide),
      pyLookup_pyUpdate_of_hasKey _ (random_attrs_keys_nodup true r2)
        (hasKey_random_attrs_power r2),
      pyLookup_random_attrs_power]
  · rw [ha, pyLookup_withReserved_of_ne _ _ _ (by decide) (by decide),
      pyLookup_pyUpdate_of_hasKey _ (random_attrs_keys_nodup true r2)
        (hasKey_random_attrs_ts r2),
      pyLookup_random_attrs_ts]
  · rw [ha, pyLookup_withReserved_of_ne _ _ _ (by decide) (by decide),
      pyLookup_pyUpdate_of_hasKey _ (random_attrs_keys_nodup true r2)
        (hasKey_random_attrs_seed r2),
      pyLookup_random_attrs_seed]
  · rw [ha, hasKey_pyUpdate, hasKey_pyUpdate, hasKey_random_attrs_egg,
      hasKey_reservedPair _ _ (by decide) (by decide)]
    have hF : hasKey (feedbackAttrs name value none none true r1)
        "x-random-easter-egg" = r1.egg := by
      unfold feedbackAttrs
      rw [hasKey_pyUpdate, hasKey_random_attrs_egg,
        hasKey_feedbackWithComment_egg name value none none "x-random-easter-egg"
          (by decide) hname rfl (by decide),
        Bool.false_or]
    rw [hF, Bool.or_false]

/-- The span emitted in the C10 witness scenario (`wDraw` has no easter
egg, `wDraw2` has one; all always-keys carry `wDraw2`'s values). -/
def wSpan10 : EmittedSpan :=
  { traceparent := []
    spanName := "feedback: q"
    attributes := pyUpdate
      (pyUpdate (feedbackAttrs "q" (PyValue.int 5) none none true wDraw)
        (_random_attrs true wDraw2))
      (reservedPair "feedback: q = 5")
    scopeSuffix := "feedback" }

theorem record_feedback_double_draw_witness :
    ("x-random-easter-egg" == "q") = false ∧
    record_feedback true wDraw wDraw2 [] "q" (PyValue.int 5) none none =
      Except.ok wSpan10 ∧
    (pyLookup wSpan10.attributes "x-random-uuid" = some (PyValue.str wDraw2.uuid) ∧
      pyLookup wSpan10.attributes "x-random-emoji" =
        some (PyValue.str (pyChoice emojis wDraw2.emojiIdx)) ∧
      pyLookup wSpan10.attributes "x-random-power" =
        some (PyValue.int (randint 1 9000 wDraw2.powerDraw)) ∧
      pyLookup wSpan10.attributes "x-random-ts" = some (PyValue.float wDraw2.ts) ∧
      pyLookup wSpan10.attributes "x-random-seed" =
        some (PyValue.int (getrandbits 32 wDraw2.seedDraw)) ∧
      hasKey wSpan10.attributes "x-random-easter-egg" = (wDraw.egg || wDraw2.egg)) :=
  ⟨by decide, rfl,
    record_feedback_double_draw wDraw wDraw2 [] "q" (PyValue.int 5) wSpan10
      (by decide) rfl⟩

/-- C4: `record_feedback(tp, "score", 0.9)` emits exactly one span named
`feedback: score` whose attributes contain the feedback-name key and the
raw value, and whose message is `feedback: score = 0.9`; in general the
span name is `"feedback: " + name` and the message is
`"feedback: " + name + " = " + repr(value)`. -/
theorem record_feedback_span_shape :
    (∀ (randomize : Bool) (r1 r2 : RandDraw) (tp : List Char),
      ∃ e, record_feedback randomize r1 r2 tp "score" (PyValue.float "0.9") none none =
          Except.ok e ∧
        record_feedback_emitted randomize r1 r2 tp "score" (PyValue.float "0.9")
          none none = [e] ∧
        e.spanName = "feedback: score" ∧
        pyLookup e.attributes "logfire.feedback.name" = some (PyValue.str "score") ∧
        pyLookup e.attributes "score" = some (PyValue.float "0.9") ∧
        pyLookup e.attributes ATTRIBUTES_MESSAGE_KEY =
          some (PyValue.str "feedback: score = 0.9")) ∧
    (∀ (randomize : Bool) (r1 r2 : RandDraw) (tp : List Char) (name : String)
        (value : PyValue) (e : EmittedSpan),
      record_feedback randomize r1 r2 tp name value none none = Except.ok e →
      e.spanName = "feedback: " ++ name ∧
      pyLookup e.attributes ATTRIBUTES_MESSAGE_KEY =
        some (PyValue.str ("feedback: " ++ name ++ " = " ++ pyRepr value))) := by
  constructor
  · intro randomize r1 r2 tp
    have heq := record_feedback_none_eq_ok randomize r1 r2 tp "score"
      (PyValue.float "0.9") (by decide) (by decide)
    refine ⟨_, heq, ?_, rfl, ?_, ?_, ?_⟩
    · unfold record_feedback_emitted
      rw [heq]
    · show pyLookup (pyUpdate
        (pyUpdate (feedbackAttrs "score" (PyValue.float "0.9") none none randomize r1)
          (_random_attrs randomize r2))
        (reservedPair ("feedback: " ++ "score" ++ " = " ++ pyRepr (PyValue.float "0.9"))))
        "logfire.feedback.name" = some (PyValue.str "score")
      rw [pyLookup_withReserved_of_ne _ _ _ (by decide) (by decide),
        pyLookup_pyUpdate_of_hasKey_eq_false _
          (hasKey_random_attrs_of_not_mem _ _ (by decide))]
      unfold feedbackAttrs
      rw [pyLookup_pyUpdate_of_hasKey_eq_false _
        (hasKey_random_attrs_of_not_mem _ _ (by decide))]
      show pyLookup (feedbackBase "score" (PyValue.float "0.9")) "logfire.feedback.name" =
        some (PyValue.str "score")
      unfold feedbackBase
      rw [pyLookup_pyInsert_ne _ _ (by decide), pyLookup_pyInsert_self]
    · show pyLookup (pyUpdate
        (pyUpdate (feedbackAttrs "score" (PyValue.float "0.9") none none randomize r1)
          (_random_attrs randomize r2))
        (reservedPair ("feedback: " ++ "score" ++ " = " ++ pyRepr (PyValue.float "0.9"))))
        "score" = some (PyValue.float "0.9")
      rw [pyLookup_withReserved_of_ne _ _ _ (by decide) (by decide),
        pyLookup_pyUpdate_of_hasKey_eq_false _
          (hasKey_random_attrs_of_not_mem _ _ (by decide))]
      unfold feedbackAttrs
      rw [pyLookup_pyUpdate_of_hasKey_eq_false _
        (hasKey_random_attrs_of_not_mem _ _ (by decide))]
      show pyLookup (feedbackBase "score" (PyValue.float "0.9")) "score" =
        some (PyValue.float "0.9")
      unfold feedbackBase
      rw [pyLookup_pyInsert_self]
    · show pyLookup (pyUpdate
        (pyUpdate (feedbackAttrs "score" (PyValue.float "0.9") none none randomize r1)
          (_random_attrs randomize r2))
        (reservedPair ("feedback: " ++ "score" ++ " = " ++ pyRepr (PyValue.float "0.9"))))
        ATTRIBUTES_MESSAGE_KEY = some (PyValue.str "feedback: score = 0.9")
      rw [pyLookup_withReserved_msg]
      rfl
  · intro randomize r1 r2 tp name value e h
    exact ⟨record_feedback_ok_spanName h,
      by rw [record_feedback_ok_attributes h, pyLookup_withReserved_msg]⟩

/-- The span emitted in the C4 witness scenario. -/
def wSpan4 : EmittedSpan :=
  { traceparent := []
    spanName := "feedback: n"
    attributes := pyUpdate
      (pyUpdate (feedbackAttrs "n" (PyValue.int 3) none none false wDraw)
        (_random_attrs false wDraw))
      (reservedPair "feedback: n = 3")
    scopeSuffix := "feedback" }

theorem record_feedback_span_shape_witness :
    record_feedback false wDraw wDraw [] "n" (PyValue.int 3) none none =
        Except.ok wSpan4 ∧
      (wSpan4.spanName = "feedback: " ++ "n" ∧
        pyLookup wSpan4.attributes ATTRIBUTES_MESSAGE_KEY =
          some (PyValue.str ("feedback: " ++ "n" ++ " = " ++ pyRepr (PyValue.int 3)))) :=
  ⟨rfl, record_feedback_span_shape.2 false wDraw wDraw [] "n" (PyValue.int 3) wSpan4 rfl⟩

/-- C8 counterexample: with `comment = None`, passing
`extra = \x7b'logfire.feedback.comment': 'sneaky'\x7d` still puts the comment key
on the emitted span, so the key is not present only when the comment
argument is a non-empty string. -/
theorem feedback_comment_counterexample :
    (record_feedback false wDraw wDraw [] "ok" (PyValue.bool true) none
          (some [("logfire.feedback.comment", PyValue.str "sneaky")])).map
        (fun e => pyLookup e.attributes "logfire.feedback.comment") =
      Except.ok (some (PyValue.str "sneaky")) := rfl

/-- C8 amended: on a successful `record_feedback` whose `extra` does not
itself contain the key `logfire.feedback.comment` and whose `name` is not
that key, the emitted span carries `logfire.feedback.comment = comment`
exactly when the comment argument is a non-empty string, and no such key
otherwise. -/
theorem feedback_comment_iff (randomize : Bool) (r1 r2 : RandDraw) (tp : List Char)
    (name : String) (value : PyValue) (comment : Option String)
    (extra : Option PyDict) (e : EmittedSpan)
    (h : record_feedback randomize r1 r2 tp name value comment extra = Except.ok e)
    (hname : ("logfire.feedback.comment" == name) = false)
    (hextra : hasKey (extra.getD []) "logfire.feedback.comment" = false) :
    pyLookup e.attributes "logfire.feedback.comment" =
      (match comment with
        | some c => if c = "" then none else some (PyValue.str c)
        | none => none) := by
  rw [record_feedback_ok_attributes h,
    pyLookup_withReserved_of_ne _ _ _ (by decide) (by decide),
    pyLookup_pyUpdate_of_hasKey_eq_false _
      (hasKey_random_attrs_of_not_mem _ _ (by decide))]
  unfold feedbackAttrs
  rw [pyLookup_pyUpdate_of_hasKey_eq_false _
    (hasKey_random_attrs_of_not_mem _ _ (by decide))]
  have hne : ("logfire.feedback.comment" : String) ≠ name := by
    simpa only [beq_eq_false_iff_ne, ne_eq] using hname
  have hwe : pyLookup (feedbackWithExtra name value extra) "logfire.feedback.comment" =
      none :=
    pyLookup_feedbackWithExtra_of_ne name value extra _ (by decide) hne hextra
  cases comment with
  | none => exact hwe
  | some c =>
    show pyLookup (if c = "" then feedbackWithExtra name value extra
      else pyInsert (feedbackWithExtra name value extra) "logfire.feedback.comment"
        (PyValue.str c)) "logfire.feedback.comment" =
      (if c = "" then none else some (PyValue.str c))
    by_cases hc : c = ""
    · rw [if_pos hc, if_pos hc]
      exact hwe
    · rw [if_neg hc, if_neg hc, pyLookup_pyInsert_self]

/-- The span emitted in the C8 witness scenario. -/
def wSpan8 : EmittedSpan :=
  { traceparent := []
    spanName := "feedback: ok"
    attributes := pyUpdate
      (pyUpdate (feedbackAttrs "ok" (PyValue.bool true) (some "looks good") none
          false wDraw)
        (_random_attrs false wDraw))
      (reservedPair "feedback: ok = True")
    scopeSuffix := "feedback" }

theorem feedback_comment_iff_witness :
    record_feedback false wDraw wDraw [] "ok" (PyValue.bool true) (some "looks good")
        none = Except.ok wSpan8 ∧
      pyLookup wSpan8.attributes "logfire.feedback.comment" =
        some (PyValue.str "looks good") :=
  ⟨rfl, feedback_comment_iff false wDraw wDraw [] "ok" (PyValue.bool true)
    (some "looks good") none wSpan8 rfl (by decide) rfl⟩

/-- The emitted attributes other than the two reserved span keys. -/
def filterNonReserved (d : PyDict) : PyDict :=
  d.filter (fun p =>
    !(p.1 == ATTRIBUTES_MESSAGE_KEY) && !(p.1 == ATTRIBUTES_SPAN_TYPE_KEY))

theorem filterNonReserved_append (d e : PyDict) :
    filterNonReserved (d ++ e) = filterNonReserved d ++ filterNonReserved e := by
  rw [filterNonReserved, filterNonReserved, filterNonReserved, List.filter_append]

theorem filterNonReserved_reservedPair (message : String) :
    filterNonReserved (reservedPair message) = [] := rfl

theorem filterNonReserved_random_attrs (rz : Bool) (r : RandDraw) :
    filterNonReserved (_random_attrs rz r) = _random_attrs rz r := by
  rw [filterNonReserved, List.filter_eq_self]
  intro p hp
  have hx : p.1 ∈ xRandomKeys :=
    random_attrs_keys_subset rz r (List.mem_map_of_mem Prod.fst hp)
  have hall : ∀ k ∈ xRandomKeys,
      (!(k == ATTRIBUTES_MESSAGE_KEY) && !(k == ATTRIBUTES_SPAN_TYPE_KEY)) = true := by
    decide
  exact hall p.1 hx

theorem filterNonReserved_of_no_reserved {A : PyDict}
    (hm : hasKey A ATTRIBUTES_MESSAGE_KEY = false)
    (ht : hasKey A ATTRIBUTES_SPAN_TYPE_KEY = false) :
    filterNonReserved A = A := by
  rw [filterNonReserved, List.filter_eq_self]
  intro p hp
  unfold hasKey at hm ht
  have h1 : ¬(p.1 == ATTRIBUTES_MESSAGE_KEY) = true := List.any_eq_false.mp hm p hp
  have h2 : ¬(p.1 == ATTRIBUTES_SPAN_TYPE_KEY) = true := List.any_eq_false.mp ht p hp
  rw [Bool.not_eq_true] at h1 h2
  rw [h1, h2]
  rfl

/-- C2 counterexample: an attribute map that already contains the reserved
message key makes the emission call raise `TypeError` (duplicate keyword
argument), so no span is emitted at all for that `A`. -/
theorem annotate_union_counterexample :
    raw_annotate_span false wDraw [] "note" "hi"
        [(ATTRIBUTES_MESSAGE_KEY, PyValue.str "boom")] =
      Except.error PyError.typeError := rfl

/-- C2 amended: for every attribute map `A` whose keys avoid the two
reserved span keys and every decorative draw with keys disjoint from
`A`'s, `raw_annotate_span` emits one span whose non-reserved attributes
are exactly `A ++ D`; with randomization disabled they are exactly `A`. -/
theorem annotate_attrs_union (r : RandDraw) (tp : List Char) (sn msg : String)
    (A : PyDict)
    (hdis : ∀ k ∈ pyKeys (_random_attrs true r), hasKey A k = false)
    (hm : hasKey A ATTRIBUTES_MESSAGE_KEY = false)
    (ht : hasKey A ATTRIBUTES_SPAN_TYPE_KEY = false) :
    (∃ e, raw_annotate_span true r tp sn msg A = Except.ok e ∧
      filterNonReserved e.attributes = A ++ _random_attrs true r) ∧
    (∃ e, raw_annotate_span false r tp sn msg A = Except.ok e ∧
      filterNonReserved e.attributes = A) := by
  have hresnodup : (pyKeys (reservedPair msg)).Nodup := by
    rw [pyKeys_reservedPair]
    decide
  constructor
  · have hAD : pyUpdate A (_random_attrs true r) = A ++ _random_attrs true r :=
      pyUpdate_eq_append A (random_attrs_keys_nodup true r) hdis
    have hdis2 : ∀ k ∈ pyKeys (reservedPair msg),
        hasKey (A ++ _random_attrs true r) k = false := by
      intro k hk
      rw [pyKeys_reservedPair] at hk
      rw [hasKey_append]
      rcases List.mem_cons.mp hk with rfl | hk
      · rw [hm, hasKey_random_attrs_of_not_mem _ _ (by decide)]
        rfl
      rcases List.mem_cons.mp hk with rfl | hk
      · rw [ht, hasKey_random_attrs_of_not_mem _ _ (by decide)]
        rfl
      · exact absurd hk (List.not_mem_nil k)
    refine ⟨_, raw_annotate_span_eq_ok true r tp sn msg A hm ht, ?_⟩
    show filterNonReserved
      (pyUpdate (pyUpdate A (_random_attrs true r)) (reservedPair msg)) =
      A ++ _random_attrs true r
    rw [hAD, pyUpdate_eq_append _ hresnodup hdis2, filterNonReserved_append,
      filterNonReserved_append, filterNonReserved_of_no_reserved hm ht,
      filterNonReserved_random_attrs, filterNonReserved_reservedPair,
      List.append_nil]
  · have hdis2 : ∀ k ∈ pyKeys (reservedPair msg), hasKey A k = false := by
      intro k hk
      rw [pyKeys_reservedPair] at hk
      rcases List.mem_cons.mp hk with rfl | hk
      · exact hm
      rcases List.mem_cons.mp hk with rfl | hk
      · exact ht
      · exact absurd hk (List.not_mem_nil k)
    refine ⟨_, raw_annotate_span_eq_ok false r tp sn msg A hm ht, ?_⟩
    show filterNonReserved
      (pyUpdate (pyUpdate A (_random_attrs false r)) (reservedPair msg)) = A
    rw [random_attrs_off, pyUpdate_nil, pyUpdate_eq_append _ hresnodup hdis2,
      filterNonReserved_append, filterNonReserved_of_no_reserved hm ht,
      filterNonReserved_reservedPair, List.append_nil]

theorem annotate_attrs_union_witness :
    (∀ k ∈ pyKeys (_random_attrs true wDraw2),
      hasKey [("k", PyValue.int 1)] k = false) ∧
    ((∃ e, raw_annotate_span true wDraw2 [] "n" "m" [("k", PyValue.int 1)] =
          Except.ok e ∧
        filterNonReserved e.attributes =
          [("k", PyValue.int 1)] ++ _random_attrs true wDraw2) ∧
      (∃ e, raw_annotate_span false wDraw2 [] "n" "m" [("k", PyValue.int 1)] =
          Except.ok e ∧
        filterNonReserved e.attributes = [("k", PyValue.int 1)])) :=
  ⟨by decide, annotate_attrs_union wDraw2 [] "n" "m" [("k", PyValue.int 1)]
    (by decide) (by decide) (by decide)⟩

/-- Lower-case hex digits, as produced by the W3C trace-context encoding. -/
def hexDigitChar (n : Nat) : Char :=
  match n with
  | 0 => '0' | 1 => '1' | 2 => '2' | 3 => '3' | 4 => '4'
  | 5 => '5' | 6 => '6' | 7 => '7' | 8 => '8' | 9 => '9'
  | 10 => 'a' | 11 => 'b' | 12 => 'c' | 13 => 'd' | 14 => 'e' | _ => 'f'

/-- The value of one hex digit character. -/
def hexVal (c : Char) : Nat :=
  match c with
  | '0' => 0 | '1' => 1 | '2' => 2 | '3' => 3 | '4' => 4
  | '5' => 5 | '6' => 6 | '7' => 7 | '8' => 8 | '9' => 9
  | 'a' => 10 | 'b' => 11 | 'c' => 12 | 'd' => 13 | 'e' => 14 | 'f' => 15
  | _ => 0

/-- `n` as a zero-padded hex string of width `w` (low digit last). -/
def toHexList : Nat → Nat → List Char
  | 0, _ => []
  | w + 1, n => toHexList w (n / 16) ++ [hexDigitChar (n % 16)]

/-- Parse a hex digit string (most significant first). -/
def parseHexList (cs : List Char) : Nat :=
  cs.foldl (fun acc c => acc * 16 + hexVal c) 0

theorem toHexList_length (w : Nat) : ∀ n, (toHexList w n).length = w := by
  induction w with
  | zero => intro n; rfl
  | succ w ih =>
    intro n
    rw [toHexList, List.length_append, ih]
    rfl

theorem hexVal_hexDigitChar : ∀ n, n < 16 → hexVal (hexDigitChar n) = n := by decide

theorem foldl_hex_toHexList (w : Nat) : ∀ n acc : Nat,
    List.foldl (fun acc c => acc * 16 + hexVal c) acc (toHexList w n) =
      acc * 16 ^ w + n % 16 ^ w := by
  induction w with
  | zero =>
    intro n acc
    simp [toHexList, Nat.mod_one]
  | succ w ih =>
    intro n acc
    rw [toHexList, List.foldl_append, ih]
    show (acc * 16 ^ w + n / 16 % 16 ^ w) * 16 + hexVal (hexDigitChar (n % 16)) =
      acc * 16 ^ (w + 1) + n % 16 ^ (w + 1)
    rw [hexVal_hexDigitChar _ (Nat.mod_lt _ (by norm_num))]
    have hmod : n % 16 ^ (w + 1) = n % 16 + 16 * (n / 16 % 16 ^ w) := by
      rw [pow_succ']
      exact Nat.mod_mul
    rw [hmod, pow_succ]
    ring

theorem parseHexList_toHexList {w n : Nat} (h : n < 16 ^ w) :
    parseHexList (toHexList w n) = n := by
  rw [parseHexList, foldl_hex_toHexList]
  simp [Nat.mod_eq_of_lt h]

/-- Modelled from the spec: the identifying data of a span context
(trace-id, span-id, trace flags) as used by the external
`opentelemetry` propagator, which is not part of the verified source. -/
structure SpanContext where
  traceId : Nat
  spanId : Nat
  flags : Nat
deriving DecidableEq, Repr

/-- Modelled from the spec: a span context is valid (and hence injectable)
when its trace-id and span-id are nonzero and fit their 128/64-bit
fields. -/
def validCtx (c : SpanContext) : Bool :=
  decide (0 < c.traceId ∧ c.traceId < 16 ^ 32 ∧ 0 < c.spanId ∧ c.spanId < 16 ^ 16)

/-- The W3C header `00-<32 hex trace-id>-<16 hex span-id>-<2 hex flags>`. -/
def injectChars (c : SpanContext) : List Char :=
  '0' :: '0' :: '-' ::
    (toHexList 32 c.traceId ++ '-' ::
      (toHexList 16 c.spanId ++ '-' :: toHexList 2 (c.flags % 256)))

/-- Modelled from the spec: `TRACEPARENT_PROPAGATOR.inject` writes the
`traceparent` carrier entry for a valid span context and nothing for an
invalid (no-op) one. -/
def injectTraceparent (c : SpanContext) : Option (List Char) :=
  if validCtx c then some (injectChars c) else none

/-- Modelled from the spec: the extracting (restoring) half of the same
propagator, parsing `version-traceid-spanid-flags`. -/
def extractTraceparent (cs : List Char) : Option SpanContext :=
  match cs with
  | _v1 :: _v2 :: d1 :: rest =>
    if d1 = '-' then
      match rest.drop 32 with
      | d2 :: rest2 =>
        if d2 = '-' then
          match rest2.drop 16 with
          | d3 :: fl =>
            if d3 = '-' ∧ (rest.take 32).length = 32 ∧ (rest2.take 16).length = 16 ∧
                fl.length = 2 then
              if parseHexList (rest.take 32) ≠ 0 ∧ parseHexList (rest2.take 16) ≠ 0 then
                some ⟨parseHexList (rest.take 32), parseHexList (rest2.take 16),
                  parseHexList fl⟩
              else none
            else none
          | [] => none
        else none
      | [] => none
    else none
  | _ => none

/-- A span handle as accepted by `get_traceparent`: a raw OTel span, or
the `LogfireSpan` wrapper whose underlying `_span` may still be unset. -/
inductive SpanHandle where
  | native (ctx : SpanContext)
  | wrapper (underlying : Option SpanContext)
deriving DecidableEq, Repr

/-- `get_traceparent`: resolve the raw span (asserting the wrapper has
one), inject its context into a fresh carrier, and return
`carrier.get(TRACEPARENT_NAME, '')`. -/
def get_traceparent : SpanHandle → Except PyError (List Char)
  | SpanHandle.native c => Except.ok ((injectTraceparent c).getD [])
  | SpanHandle.wrapper none => Except.error PyError.assertionError
  | SpanHandle.wrapper (some c) => Except.ok ((injectTraceparent c).getD [])

theorem extract_concat (v1 v2 : Char) (t s f : List Char)
    (h1 : t.length = 32) (h2 : s.length = 16) (h3 : f.length = 2)
    (ht : parseHexList t ≠ 0) (hs : parseHexList s ≠ 0) :
    extractTraceparent (v1 :: v2 :: '-' :: (t ++ '-' :: (s ++ '-' :: f))) =
      some ⟨parseHexList t, parseHexList s, parseHexList f⟩ := by
  have hdrop1 : (t ++ '-' :: (s ++ '-' :: f)).drop 32 = '-' :: (s ++ '-' :: f) :=
    List.drop_left' h1
  have htake1 : (t ++ '-' :: (s ++ '-' :: f)).take 32 = t := List.take_left' h1
  have hdrop2 : (s ++ '-' :: f).drop 16 = '-' :: f := List.drop_left' h2
  have htake2 : (s ++ '-' :: f).take 16 = s := List.take_left' h2
  simp only [extractTraceparent, hdrop1, htake1, hdrop2, htake2]
  rw [if_pos trivial, if_pos trivial, if_pos ⟨trivial, h1, h2, h3⟩, if_pos ⟨ht, hs⟩]

theorem extract_inject (c : SpanContext) (h : validCtx c = true) :
    extractTraceparent (injectChars c) =
      some ⟨c.traceId, c.spanId, c.flags % 256⟩ := by
  obtain ⟨h1, h2, h3, h4⟩ := of_decide_eq_true h
  have hpt : parseHexList (toHexList 32 c.traceId) = c.traceId :=
    parseHexList_toHexList h2
  have hps : parseHexList (toHexList 16 c.spanId) = c.spanId :=
    parseHexList_toHexList h4
  have hpf : parseHexList (toHexList 2 (c.flags % 256)) = c.flags % 256 :=
    parseHexList_toHexList (Nat.mod_lt _ (by norm_num))
  rw [injectChars, extract_concat _ _ _ _ _ (toHexList_length 32 _)
    (toHexList_length 16 _) (toHexList_length 2 _)
    (by rw [hpt]; omega) (by rw [hps]; omega), hpt, hps, hpf]

/-- C5: for every live (valid) span, feeding the string returned by
`get_traceparent` back into the extracting half of the same propagator
yields a context whose trace-id equals the original span's trace-id. -/
theorem traceparent_roundtrip (c : SpanContext) (h : validCtx c = true) :
    ∃ s ctx2, get_traceparent (SpanHandle.native c) = Except.ok s ∧
      get_traceparent (SpanHandle.wrapper (some c)) = Except.ok s ∧
      extractTraceparent s = some ctx2 ∧ ctx2.traceId = c.traceId := by
  refine ⟨injectChars c, ⟨c.traceId, c.spanId, c.flags % 256⟩, ?_, ?_, ?_, rfl⟩
  · show Except.ok ((injectTraceparent c).getD []) = _
    rw [injectTraceparent, if_pos h]
    rfl
  · show Except.ok ((injectTraceparent c).getD []) = _
    rw [injectTraceparent, if_pos h]
    rfl
  · exact extract_inject c h

theorem traceparent_roundtrip_witness :
    validCtx ⟨1, 2, 1⟩ = true ∧
    (∃ s ctx2, get_traceparent (SpanHandle.native ⟨1, 2, 1⟩) = Except.ok s ∧
      get_traceparent (SpanHandle.wrapper (some ⟨1, 2, 1⟩)) = Except.ok s ∧
      extractTraceparent s = some ctx2 ∧ ctx2.traceId = (⟨1, 2, 1⟩ : SpanContext).traceId) :=
  ⟨by decide, traceparent_roundtrip ⟨1, 2, 1⟩ (by decide)⟩

/-- C6: whenever the propagator injects no `traceparent` entry into the
carrier (an invalid / no-op span context), `get_traceparent` returns the
empty string rather than raising. -/
theorem traceparent_empty_on_no_inject (c : SpanContext)
    (h : injectTraceparent c = none) :
    get_traceparent (SpanHandle.native c) = Except.ok [] ∧
    get_traceparent (SpanHandle.wrapper (some c)) = Except.ok [] := by
  constructor <;>
  · show Except.ok ((injectTraceparent c).getD []) = Except.ok []
    rw [h]
    rfl

theorem traceparent_empty_on_no_inject_witness :
    injectTraceparent ⟨0, 0, 0⟩ = none ∧
    (get_traceparent (SpanHandle.native ⟨0, 0, 0⟩) = Except.ok [] ∧
      get_traceparent (SpanHandle.wrapper (some ⟨0, 0, 0⟩)) = Except.ok []) :=
  ⟨rfl, traceparent_empty_on_no_inject ⟨0, 0, 0⟩ rfl⟩

/-- C7: `get_traceparent` on the wrapper form with an unset underlying
span fails with the fatal assertion; with a set underlying span the
assertion branch is unreachable and the call returns normally. -/
theorem get_traceparent_wrapper_assert :
    get_traceparent (SpanHandle.wrapper none) = Except.error PyError.assertionError ∧
    ∀ c : SpanContext, ∃ s, get_traceparent (SpanHandle.wrapper (some c)) =
      Except.ok s :=
  ⟨rfl, fun c => ⟨(injectTraceparent c).getD [], rfl⟩⟩
